import Mathlib

/-!
# static/webrtcclient.js: signalling glue of a two-party WebRTC call

The script is a set of handlers that read and assign four module-level
bindings (`peerConnection`, `dataChannel`, `room`, `socket`), four DOM
properties (`srcObject` of the two video elements, `value` of the chat input
and output), and otherwise call into the browser (media devices, `prompt`,
`RTCPeerConnection`, `RTCDataChannel`) and into Socket.io.

Embedding.  A `Page` value holds the four bindings, the DOM properties the
script touches, the platform objects that exist (created or received and not
yet closed), and the `trace` of every platform call the script has made, in
program order.  Every JavaScript function becomes a Lean function
`Page → Page × Completion α`: the page after the call together with either
the returned value or the raised exception.  What the platform answers (the
stream or the rejection of `getUserMedia`, the text typed into `prompt`, the
offer made by `createOffer`, ...) is an argument of the Lean function.  The
function named after an `async` function runs it to completion without
interruption, its awaited platform calls answering in program order.  An
`async` function gives the page back to the browser at every `await`, and
other handlers may run before it goes on; `call` and `handle_new_peer`, the
two `async` functions that create objects, are therefore also given in
segments (`call_begin`, `call_fallback`, `call_camera`, `call_resume`,
`handle_new_peer_begin`, `handle_new_peer_offered`, `handle_new_peer_applied`),
one per stretch between two `await`, which a run may interleave with any other
action.  `console.log` and `console.error` have no effect on the page and are
left out of the trace.

Platform calls that the script does not await (`io`, `socket.on`,
`socket.emit`, `new RTCPeerConnection`, `addTrack`, `createDataChannel`,
`track.stop`, `close`) return normally on an object; a property access or
method call on `undefined` or `null` raises a TypeError.  The live sets record
only the `close()` calls the script makes itself.
-/

namespace WebRTCClient

/-! ## Values -/

/-- The content of a JavaScript binding: `undefined`, `null`, or a value. -/
inductive Binding (α : Type) where
  | undefined
  | null
  | value (a : α)
  deriving DecidableEq, Repr

/-- Truthiness of a binding that holds an object: `if (x) ...`. -/
def Binding.truthy {α : Type} : Binding α → Bool
  | .value _ => true
  | _ => false

/-- Exceptions: the `TypeError` of a property access on `undefined`/`null`,
or the rejection of a platform call. -/
inductive Err where
  | typeError
  | rejected (code : Nat)
  deriving DecidableEq, Repr

/-- How a call ends: it returns a value or it raises. -/
inductive Completion (α : Type) where
  | returned (a : α)
  | raised (e : Err)
  deriving DecidableEq, Repr

/-- A `MediaStream`: its identity and the tracks `getTracks()` returns. -/
structure MediaStream where
  id : Nat
  tracks : List Nat
  deriving DecidableEq, Repr

/-- An `RTCSessionDescription` (offer or answer), kept abstract. -/
structure Description where
  id : Nat
  deriving DecidableEq, Repr

/-- An `RTCIceCandidate`, kept abstract. -/
structure Candidate where
  id : Nat
  deriving DecidableEq, Repr

/-- An `RTCDataChannel`: made here by `createDataChannel`, or announced by the
remote peer in a `datachannel` event. -/
inductive Channel where
  | created (n : Nat)
  | received (n : Nat)
  deriving DecidableEq, Repr

/-- The argument of a signalling message. -/
inductive Payload where
  | room (r : Binding String)
  | description (d : Description)
  | candidate (c : Candidate)
  deriving DecidableEq, Repr

/-- One call into the platform or into Socket.io. -/
inductive Event where
  | getUserMedia (video audio : Bool)
  | getDisplayMedia (video audio : Bool)
  | io (sock : Nat)
  | on (sock : Nat) (message : String)
  | prompt (text : String)
  | emit (sock : Nat) (message : String) (payload : Payload)
  | newPeerConnection (pc : Nat) (iceServer : String)
  | addTrack (pc : Nat) (track : Nat) (stream : Nat)
  | setPcHandler (pc : Nat) (name : String) (installed : Bool)
  | createDataChannel (pc : Nat) (label : String) (dc : Channel)
  | setDcHandler (dc : Channel) (name : String)
  | createOffer (pc : Nat)
  | createAnswer (pc : Nat)
  | setLocalDescription (pc : Nat) (d : Description)
  | setRemoteDescription (pc : Nat) (d : Description)
  | addIceCandidate (pc : Nat) (c : Candidate)
  | stopTrack (track : Nat)
  | closePeerConnection (pc : Nat)
  | closeDataChannel (dc : Channel)
  | send (dc : Channel) (text : String)
  deriving DecidableEq, Repr

/-- Whether an event is a signalling message sent with `socket.emit`. -/
def Event.isEmit : Event → Bool
  | .emit _ _ _ => true
  | _ => false

/-- The signalling messages among a list of events, in order. -/
def emits (es : List Event) : List Event :=
  es.filter Event.isEmit

/-! ## The page -/

/-- The script's state: the four module bindings (lines 6-9), the DOM
properties it reads and writes, the live platform objects and the trace. -/
structure Page where
  peerConnection : Binding Nat
  dataChannel : Binding Channel
  room : Binding String
  socket : Binding Nat
  /-- The `srcObject` of the `localVideo` element, `none` for `null`. -/
  localVideo : Option MediaStream
  /-- The `srcObject` of the `remoteVideo` element, `none` for `null`. -/
  remoteVideo : Option MediaStream
  dataChannelInput : String
  dataChannelOutput : String
  /-- Identity given to the next object the platform creates. -/
  nextObject : Nat
  /-- Peer connections created and not yet closed. -/
  livePcs : List Nat
  /-- Data channels created or received and not yet closed. -/
  liveDcs : List Channel
  trace : List Event
  deriving DecidableEq, Repr

/-- The page right after the script has loaded: `let` without initialiser
leaves the four bindings `undefined`; no media is attached. -/
def Page.initial : Page :=
  { peerConnection := .undefined, dataChannel := .undefined, room := .undefined,
    socket := .undefined, localVideo := none, remoteVideo := none,
    dataChannelInput := "", dataChannelOutput := "", nextObject := 0,
    livePcs := [], liveDcs := [], trace := [] }

/-- Record one platform call. -/
def Page.log (p : Page) (e : Event) : Page :=
  { p with trace := p.trace ++ [e] }

/-- Record several platform calls, in order. -/
def Page.logAll (p : Page) (es : List Event) : Page :=
  { p with trace := p.trace ++ es }

/-! ## 1. Make call -/

/-- Lines 36-56.  `gum` and `gdm` are what `getUserMedia` and
`getDisplayMedia` answer when called. -/
def enable_camera (gum gdm : Completion MediaStream) (p : Page) :
    Page × Completion MediaStream :=
  -- const constraints = { video: true, audio: false };
  let video := true
  let audio := false
  -- try { stream = await getUserMedia(constraints) }
  let p1 := p.log (.getUserMedia video audio)
  let tried : Page × Completion MediaStream :=
    match gum with
    | .returned s => (p1, .returned s)
    | .raised _ =>
      -- catch (error) { stream = await getDisplayMedia(constraints) }
      (p1.log (.getDisplayMedia video audio), gdm)
  match tried with
  | (p2, .returned stream) =>
    -- localVideo.srcObject = stream; return stream;
    ({ p2 with localVideo := some stream }, .returned stream)
  | (p2, .raised e) => (p2, .raised e)

/-! ## 2. Signalling connection -/

/-- Lines 64-69: `io()` hands out a new socket. -/
def create_signaling_connection (p : Page) : Page × Nat :=
  let sock := p.nextObject
  ({ p with nextObject := p.nextObject + 1, trace := p.trace ++ [.io sock] }, sock)

/-- Lines 73-98: eight `socket.on` registrations. -/
def add_signaling_handlers (sock : Nat) (p : Page) : Page :=
  p.logAll [.on sock "created", .on sock "joined", .on sock "full",
    .on sock "new_peer", .on sock "invite", .on sock "ok",
    .on sock "ice_candidate", .on sock "bye"]

/-- JavaScript `room != ''` for a room that is `undefined`, `null` or a
string: `null` and `undefined` are loosely equal only to each other, two
strings are compared as strings. -/
def looseNeEmpty : Binding String → Bool
  | .undefined => true
  | .null => true
  | .value s => s != ""

/-- Lines 102-110.  `answer` is what `prompt` returns: the text typed, or
`none` for the `null` of a cancelled prompt. -/
def call_room (answer : Option String) (sock : Nat) (p : Page) : Page :=
  let r : Binding String :=
    match answer with
    | some s => .value s
    | none => .null
  -- room = prompt('Enter room name:');
  let p1 := { p.log (.prompt "Enter room name:") with room := r }
  if looseNeEmpty p1.room then
    p1.log (.emit sock "join" (.room p1.room))
  else
    p1

/-! ## 3. PeerConnection creation -/

/-- Lines 118-130: `new RTCPeerConnection(pcConfiguration)` and one `addTrack`
for every track of the local stream. -/
def create_peerconnection (localStream : MediaStream) (p : Page) : Page × Nat :=
  let pc := p.nextObject
  let p1 : Page :=
    { p with
      nextObject := p.nextObject + 1
      livePcs := pc :: p.livePcs
      trace := p.trace ++ [.newPeerConnection pc "stun:stun.l.google.com:19302"] }
  (p1.logAll (localStream.tracks.map fun track => .addTrack pc track localStream.id), pc)

/-- Lines 135-144: the three handlers set on the connection. -/
def add_peerconnection_handlers (pc : Nat) (p : Page) : Page :=
  p.logAll [.setPcHandler pc "onicecandidate" true, .setPcHandler pc "ontrack" true,
    .setPcHandler pc "ondatachannel" true]

/-- Lines 17-30. -/
def call (gum gdm : Completion MediaStream) (answer : Option String) (p : Page) :
    Page × Completion Unit :=
  -- const localStream = await enable_camera();
  match enable_camera gum gdm p with
  | (p1, .raised e) => (p1, .raised e)
  | (p1, .returned localStream) =>
    -- socket = create_signaling_connection();
    let made := create_signaling_connection p1
    let sock := made.2
    let p2 : Page := { made.1 with socket := .value sock }
    -- add_signaling_handlers(socket); call_room(socket);
    let p3 := call_room answer sock (add_signaling_handlers sock p2)
    -- peerConnection = create_peerconnection(localStream);
    let built := create_peerconnection localStream p3
    let pc := built.2
    let p4 : Page := { built.1 with peerConnection := .value pc }
    -- add_peerconnection_handlers(peerConnection);
    (add_peerconnection_handlers pc p4, .returned ())

/-- Lines 17-19 and 36-48: `call()` from the click to its first suspension,
the `await` of `getUserMedia` inside `enable_camera`. -/
def call_begin (p : Page) : Page × Completion Unit :=
  -- const constraints = { video: true, audio: false };
  let video := true
  let audio := false
  (p.log (.getUserMedia video audio), .returned ())

/-- Lines 50-52: a suspended `call()` whose `getUserMedia` was rejected goes on
in the `catch` up to its next suspension, the `await` of `getDisplayMedia`. -/
def call_fallback (p : Page) : Page × Completion Unit :=
  let video := true
  let audio := false
  (p.log (.getDisplayMedia video audio), .returned ())

/-- Lines 54-55: the suspended `enable_camera` goes on with the `stream` it
awaited (from the camera or from the screen), shows it and returns it.  When
the awaited call is rejected instead, `call()` ends there and the page is not
touched. -/
def call_camera (stream : MediaStream) (p : Page) : Page × Completion Unit :=
  -- localVideo.srcObject = stream; return stream;
  ({ p with localVideo := some stream }, .returned ())

/-- Lines 19 and 23-29: `call()`, suspended at `await enable_camera()`, goes on
with the stream `enable_camera` returned, to its end. -/
def call_resume (localStream : MediaStream) (answer : Option String) (p : Page) :
    Page × Completion Unit :=
  -- socket = create_signaling_connection();
  let made := create_signaling_connection p
  let sock := made.2
  let p2 : Page := { made.1 with socket := .value sock }
  -- add_signaling_handlers(socket); call_room(socket);
  let p3 := call_room answer sock (add_signaling_handlers sock p2)
  -- peerConnection = create_peerconnection(localStream);
  let built := create_peerconnection localStream p3
  let pc := built.2
  let p4 : Page := { built.1 with peerConnection := .value pc }
  -- add_peerconnection_handlers(peerConnection);
  (add_peerconnection_handlers pc p4, .returned ())

/-! ## 7. DataChannel (placed before section 4, which calls it) -/

/-- Lines 234-244.  The argument is the value of the connection binding the
caller passes; `createDataChannel` on `undefined` or `null` is a TypeError. -/
def create_datachannel (peerConnection : Binding Nat) (p : Page) : Page × Completion Unit :=
  match peerConnection with
  | .value pc =>
    -- dataChannel = peerConnection.createDataChannel("chat");
    let dc := Channel.created p.nextObject
    let p1 : Page :=
      { p with
        nextObject := p.nextObject + 1
        liveDcs := dc :: p.liveDcs
        dataChannel := .value dc
        trace := p.trace ++ [.createDataChannel pc "chat" dc] }
    -- dataChannel.onopen = ...; dataChannel.onmessage = ...;
    (p1.logAll [.setDcHandler dc "onopen", .setDcHandler dc "onmessage"], .returned ())
  | _ => (p, .raised .typeError)

/-- Lines 248-258.  `channel` identifies `event.channel`, the channel the
remote peer opened. -/
def handle_remote_datachannel (channel : Nat) (p : Page) : Page × Completion Unit :=
  -- dataChannel = event.channel;
  let dc := Channel.received channel
  let p1 : Page :=
    { p with
      liveDcs := if dc ∈ p.liveDcs then p.liveDcs else dc :: p.liveDcs
      dataChannel := .value dc }
  (p1.logAll [.setDcHandler dc "onopen", .setDcHandler dc "onmessage"], .returned ())

/-- Lines 263-265. -/
def handle_datachannel_open (sent : Completion Unit) (p : Page) : Page × Completion Unit :=
  match p.dataChannel with
  | .value dc => (p.log (.send dc "*** Channel is ready ***"), sent)
  | _ => (p, .raised .typeError)

/-- Lines 269-277.  `sent` is how `dataChannel.send` ends. -/
def sendMessage (sent : Completion Unit) (p : Page) : Page × Completion Unit :=
  let message := p.dataChannelInput
  let p1 : Page :=
    { p with
      dataChannelInput := ""
      dataChannelOutput := p.dataChannelOutput ++ ("        ME: " ++ message ++ "\n") }
  match p1.dataChannel with
  | .value dc => (p1.log (.send dc message), sent)
  | _ => (p1, .raised .typeError)

/-- Lines 280-282.  `data` is `event.data`. -/
def handle_datachannel_message (data : String) (p : Page) : Page × Completion Unit :=
  ({ p with dataChannelOutput := p.dataChannelOutput ++ ("PEER: " ++ data ++ "\n") },
    .returned ())

/-! ## 4. Signalling for peerConnection negotiation -/

/-- Lines 153-163.  `offered` is what `createOffer` answers and `applied` how
`setLocalDescription` ends.  The parameter `room` of the source shadows the
module binding and is only written to the console. -/
def handle_new_peer (_room : Binding String) (offered : Completion Description)
    (applied : Completion Unit) (p : Page) : Page × Completion Unit :=
  -- create_datachannel(peerConnection);
  match create_datachannel p.peerConnection p with
  | (p1, .raised e) => (p1, .raised e)
  | (p1, .returned ()) =>
    match p1.peerConnection with
    | .value pc =>
      -- const offer = await peerConnection.createOffer();
      let p2 := p1.log (.createOffer pc)
      match offered with
      | .raised e => (p2, .raised e)
      | .returned offer =>
        -- await peerConnection.setLocalDescription(offer);
        let p3 := p2.log (.setLocalDescription pc offer)
        match applied with
        | .raised e => (p3, .raised e)
        | .returned () =>
          -- socket.emit('invite', offer);
          match p3.socket with
          | .value sock => (p3.log (.emit sock "invite" (.description offer)), .returned ())
          | _ => (p3, .raised .typeError)
    | _ => (p1, .raised .typeError)

/-- Lines 153-158: `handle_new_peer` from the 'new_peer' message to its first
suspension, the `await` of `createOffer`. -/
def handle_new_peer_begin (_room : Binding String) (p : Page) : Page × Completion Unit :=
  -- create_datachannel(peerConnection);
  match create_datachannel p.peerConnection p with
  | (p1, .raised e) => (p1, .raised e)
  | (p1, .returned ()) =>
    -- peerConnection.createOffer()
    match p1.peerConnection with
    | .value pc => (p1.log (.createOffer pc), .returned ())
    | _ => (p1, .raised .typeError)

/-- Line 160: a suspended `handle_new_peer` goes on with the `offer` it
awaited up to the `await` of `setLocalDescription`; `peerConnection` is read
again. -/
def handle_new_peer_offered (offer : Description) (p : Page) : Page × Completion Unit :=
  match p.peerConnection with
  | .value pc => (p.log (.setLocalDescription pc offer), .returned ())
  | _ => (p, .raised .typeError)

/-- Line 162: a suspended `handle_new_peer` whose `setLocalDescription` has
succeeded sends the invite; `socket` is read then. -/
def handle_new_peer_applied (offer : Description) (p : Page) : Page × Completion Unit :=
  match p.socket with
  | .value sock => (p.log (.emit sock "invite" (.description offer)), .returned ())
  | _ => (p, .raised .typeError)

/-- Lines 168-178.  `remoteSet`, `answered` and `applied` are how
`setRemoteDescription`, `createAnswer` and `setLocalDescription` end. -/
def handle_invite (offer : Description) (remoteSet : Completion Unit)
    (answered : Completion Description) (applied : Completion Unit) (p : Page) :
    Page × Completion Unit :=
  match p.peerConnection with
  | .value pc =>
    -- await peerConnection.setRemoteDescription(offer);
    let p1 := p.log (.setRemoteDescription pc offer)
    match remoteSet with
    | .raised e => (p1, .raised e)
    | .returned () =>
      -- const answer = await peerConnection.createAnswer();
      let p2 := p1.log (.createAnswer pc)
      match answered with
      | .raised e => (p2, .raised e)
      | .returned answer =>
        -- await peerConnection.setLocalDescription(answer);
        let p3 := p2.log (.setLocalDescription pc answer)
        match applied with
        | .raised e => (p3, .raised e)
        | .returned () =>
          -- socket.emit('ok', answer);
          match p3.socket with
          | .value sock => (p3.log (.emit sock "ok" (.description answer)), .returned ())
          | _ => (p3, .raised .typeError)
  | _ => (p, .raised .typeError)

/-- Lines 183-188. -/
def handle_ok (answer : Description) (remoteSet : Completion Unit) (p : Page) :
    Page × Completion Unit :=
  match p.peerConnection with
  | .value pc => (p.log (.setRemoteDescription pc answer), remoteSet)
  | _ => (p, .raised .typeError)

/-! ## 5. ICE negotiation, 6. remote stream -/

/-- Lines 197-204.  `candidate` is `event.candidate`: an `RTCIceCandidate`
object (truthy) or `none` for the `null` that ends the candidates. -/
def handle_local_icecandidate (candidate : Option Candidate) (p : Page) :
    Page × Completion Unit :=
  match candidate with
  | some c =>
    -- socket.emit('ice_candidate', event.candidate);
    match p.socket with
    | .value sock => (p.log (.emit sock "ice_candidate" (.candidate c)), .returned ())
    | _ => (p, .raised .typeError)
  | none => (p, .returned ())

/-- Lines 208-213. -/
def handle_remote_icecandidate (candidate : Candidate) (added : Completion Unit) (p : Page) :
    Page × Completion Unit :=
  match p.peerConnection with
  | .value pc => (p.log (.addIceCandidate pc candidate), added)
  | _ => (p, .raised .typeError)

/-- Lines 222-226.  `streams` is `event.streams`; an absent first stream
(`undefined`) is stored in the nullable `srcObject` as `null`. -/
def handle_remote_track (streams : List MediaStream) (p : Page) : Page × Completion Unit :=
  ({ p with remoteVideo := streams.head? }, .returned ())

/-! ## 8. End of call -/

/-- The `stop()` calls `hangUp` makes for a video element: one per track of
its `srcObject`, none when `srcObject` is `null` (used to state the trace). -/
def stopTracks : Option MediaStream → List Event
  | some s => s.tracks.map Event.stopTrack
  | none => []

/-- The eight handler properties `hangUp` clears on the connection. -/
def clearedHandlers (pc : Nat) : List Event :=
  ["ontrack", "onremovetrack", "onremovestream", "onicecandidate",
    "oniceconnectionstatechange", "onsignalingstatechange", "onicegatheringstatechange",
    "onnegotiationneeded"].map fun name => .setPcHandler pc name false

/-- Lines 290-334. -/
def hangUp (p : Page) : Page × Completion Unit :=
  -- socket.emit('bye', room);
  match p.socket with
  | .value sock =>
    let p1 := p.log (.emit sock "bye" (.room p.room))
    -- if (peerConnection) { peerConnection.ontrack = null; ... }
    let p2 :=
      match p1.peerConnection with
      | .value pc => p1.logAll (clearedHandlers pc)
      | _ => p1
    -- if (remoteVideo.srcObject) { ...forEach(track => track.stop()); srcObject = null; }
    let p3 : Page :=
      match p2.remoteVideo with
      | some stream => { p2.logAll (stream.tracks.map Event.stopTrack) with remoteVideo := none }
      | none => p2
    -- if (localVideo.srcObject) { ...forEach(track => track.stop()); srcObject = null; }
    let p4 : Page :=
      match p3.localVideo with
      | some stream => { p3.logAll (stream.tracks.map Event.stopTrack) with localVideo := none }
      | none => p3
    -- peerConnection.close(); peerConnection = null;
    match p4.peerConnection with
    | .value pc =>
      let p5 : Page :=
        { p4.log (.closePeerConnection pc) with
          livePcs := p4.livePcs.filter (· ≠ pc)
          peerConnection := .null }
      -- dataChannel.close(); dataChannel = null;
      match p5.dataChannel with
      | .value dc =>
        let p6 : Page :=
          { p5.log (.closeDataChannel dc) with
            liveDcs := p5.liveDcs.filter (· ≠ dc)
            dataChannel := .null }
        ({ p6 with dataChannelOutput := p6.dataChannelOutput ++ "*** Channel is closed ***\n" },
          .returned ())
      | _ => (p5, .raised .typeError)
    | _ => (p4, .raised .typeError)
  | _ => (p, .raised .typeError)

/-! ## Runs of the page -/

/-- One uninterrupted stretch of the script: a whole handler started by a
button click, a signalling message, a platform event or the window unload,
with the platform's answers, or one segment of `call` or of `handle_new_peer`
between two `await`.  A run may resume a segment that no earlier action
suspended; this adds pages to those the browser can reach and removes none. -/
inductive Action where
  | call (gum gdm : Completion MediaStream) (answer : Option String)
  | call_begin
  | call_fallback
  | call_camera (stream : MediaStream)
  | call_resume (localStream : MediaStream) (answer : Option String)
  | handle_new_peer (room : Binding String) (offered : Completion Description)
      (applied : Completion Unit)
  | handle_new_peer_begin (room : Binding String)
  | handle_new_peer_offered (offer : Description)
  | handle_new_peer_applied (offer : Description)
  | handle_invite (offer : Description) (remoteSet : Completion Unit)
      (answered : Completion Description) (applied : Completion Unit)
  | handle_ok (answer : Description) (remoteSet : Completion Unit)
  | handle_local_icecandidate (candidate : Option Candidate)
  | handle_remote_icecandidate (candidate : Candidate) (added : Completion Unit)
  | handle_remote_track (streams : List MediaStream)
  | handle_remote_datachannel (channel : Nat)
  | handle_datachannel_open (sent : Completion Unit)
  | sendMessage (sent : Completion Unit)
  | handle_datachannel_message (data : String)
  | hangUp
  deriving DecidableEq, Repr

/-- Run one action on the page. -/
def perform (p : Page) : Action → Page × Completion Unit
  | .call gum gdm answer => call gum gdm answer p
  | .call_begin => call_begin p
  | .call_fallback => call_fallback p
  | .call_camera stream => call_camera stream p
  | .call_resume localStream answer => call_resume localStream answer p
  | .handle_new_peer room offered applied => handle_new_peer room offered applied p
  | .handle_new_peer_begin room => handle_new_peer_begin room p
  | .handle_new_peer_offered offer => handle_new_peer_offered offer p
  | .handle_new_peer_applied offer => handle_new_peer_applied offer p
  | .handle_invite offer remoteSet answered applied =>
    handle_invite offer remoteSet answered applied p
  | .handle_ok answer remoteSet => handle_ok answer remoteSet p
  | .handle_local_icecandidate candidate => handle_local_icecandidate candidate p
  | .handle_remote_icecandidate candidate added => handle_remote_icecandidate candidate added p
  | .handle_remote_track streams => handle_remote_track streams p
  | .handle_remote_datachannel channel => handle_remote_datachannel channel p
  | .handle_datachannel_open sent => handle_datachannel_open sent p
  | .sendMessage sent => sendMessage sent p
  | .handle_datachannel_message data => handle_datachannel_message data p
  | .hangUp => hangUp p

/-- The page after one action; an exception ends the action, not the page. -/
def step (p : Page) (a : Action) : Page :=
  (perform p a).1

/-- The page after a sequence of actions. -/
def run (acts : List Action) (p : Page) : Page :=
  acts.foldl step p

/-! ## Properties of pages and runs -/

/-- A camera stream with one video track. -/
def cameraStream : MediaStream :=
  { id := 7, tracks := [1] }

/-- At most one peer connection and at most one data channel is live, and a
live one is the one held in the `peerConnection` / `dataChannel` binding. -/
def AtMostOneActive (p : Page) : Prop :=
  p.livePcs.length ≤ 1 ∧ (∀ pc ∈ p.livePcs, p.peerConnection = .value pc)
    ∧ p.liveDcs.length ≤ 1 ∧ (∀ dc ∈ p.liveDcs, p.dataChannel = .value dc)

/-- The four operations that create, receive or close a connection or a
channel: `call`, `handle_new_peer`, `handle_remote_datachannel`, `hangUp`,
the first two whole or in segments. -/
def Action.isSessionOp : Action → Bool
  | .call _ _ _ => true
  | .call_begin => true
  | .call_fallback => true
  | .call_camera _ => true
  | .call_resume _ _ => true
  | .handle_new_peer _ _ _ => true
  | .handle_new_peer_begin _ => true
  | .handle_new_peer_offered _ => true
  | .handle_new_peer_applied _ => true
  | .handle_remote_datachannel _ => true
  | .hangUp => true
  | _ => false

/-- A `call` that gets a media stream, and so goes on to line 28 and creates
a peer connection: the whole `call` when the camera or the screen answers a
stream, or the segment that resumes `call` with the stream. -/
def Action.createsConnection : Action → Bool
  | .call (.returned _) _ _ => true
  | .call (.raised _) (.returned _) _ => true
  | .call_resume _ _ => true
  | _ => false

/-- A `handle_new_peer` at the point where it calls `create_datachannel`:
the whole handler, or its first segment. -/
def Action.startsNewPeer : Action → Bool
  | .handle_new_peer _ _ _ => true
  | .handle_new_peer_begin _ => true
  | _ => false

/-- A `handle_remote_datachannel`, which receives a channel. -/
def Action.receivesChannel : Action → Bool
  | .handle_remote_datachannel _ => true
  | _ => false

/-- A `hangUp`. -/
def Action.isHangUp : Action → Bool
  | .hangUp => true
  | _ => false

/-- Where a sequence of operations stands in the current round, a round being
what lies between two `hangUp`: no `call` has created a connection yet
(`idle`), one has (`connected`), and after it one data channel was created or
received (`chatting`).  Read off the operations alone, not off the page. -/
inductive Phase where
  | idle
  | connected
  | chatting
  deriving DecidableEq, Repr

/-- The phase after one more operation, `none` when the operation is one the
rounds exclude: a second connection-creating `call` in a round, a
`handle_new_peer` after the round's data channel, a
`handle_remote_datachannel` without connection or after the round's data
channel.  `hangUp` ends the round.  A `handle_new_peer` in a round without
connection is let through (it raises a TypeError in `create_datachannel`). -/
def Phase.next : Phase → Action → Option Phase
  | .idle, a =>
    if a.isHangUp then some .idle
    else if a.createsConnection then some .connected
    else if a.receivesChannel then none
    else some .idle
  | .connected, a =>
    if a.isHangUp then some .idle
    else if a.createsConnection then none
    else if a.receivesChannel || a.startsNewPeer then some .chatting
    else some .connected
  | .chatting, a =>
    if a.isHangUp then some .idle
    else if a.createsConnection || a.receivesChannel || a.startsNewPeer then none
    else some .chatting

/-- Whether a sequence consists of the four session operations, whole or in
segments, and keeps to the rounds from phase `ph` on. -/
def inRounds : Phase → List Action → Bool
  | _, [] => true
  | ph, a :: rest =>
    a.isSessionOp &&
      match ph.next a with
      | some ph' => inRounds ph' rest
      | none => false

/-- The part of the page the phases speak of: the connection and channel
bindings, the live objects, and `socket`. -/
def Page.objects (p : Page) :
    Binding Nat × List Nat × Binding Channel × List Channel × Binding Nat :=
  (p.peerConnection, p.livePcs, p.dataChannel, p.liveDcs, p.socket)

/-- What a phase says about the page: which bindings are set and which
objects are live. -/
def Phase.Holds (ph : Phase) (p : Page) : Prop :=
  match ph with
  | .idle =>
    p.peerConnection.truthy = false ∧ p.livePcs = []
      ∧ p.dataChannel.truthy = false ∧ p.liveDcs = []
  | .connected =>
    (∃ pc, p.peerConnection = .value pc ∧ p.livePcs = [pc]) ∧ p.socket.truthy = true
      ∧ p.dataChannel.truthy = false ∧ p.liveDcs = []
  | .chatting =>
    (∃ pc, p.peerConnection = .value pc ∧ p.livePcs = [pc]) ∧ p.socket.truthy = true
      ∧ ∃ dc, p.dataChannel = .value dc ∧ p.liveDcs = [dc]

/-- An event that installs one of the script's handlers on a socket or on a
peer connection. -/
def Event.installsHandler : Event → Bool
  | .on _ _ => true
  | .setPcHandler _ _ true => true
  | _ => false

/-- Once one of the script's handlers has been installed, `socket` is set:
the handlers are what later delivers signalling messages and connection
events to the script. -/
def SocketReady (p : Page) : Prop :=
  p.trace.any Event.installsHandler = true → p.socket.truthy = true

/-- Whether an event is a call of `setRemoteDescription`. -/
def Event.isSetRemoteDescription : Event → Bool
  | .setRemoteDescription _ _ => true
  | _ => false

/-- Two clicks on the call button, each with a working camera. -/
def twoCalls : List Action :=
  [.call (.returned cameraStream) (.raised (.rejected 0)) (some "lab"),
   .call (.returned cameraStream) (.raised (.rejected 0)) (some "lab")]

/-- Two clicks on the call button before the camera has answered the first:
both calls are suspended at line 19, then both go on. -/
def overlappingCalls : List Action :=
  [.call_begin, .call_begin, .call_camera cameraStream,
   .call_resume cameraStream (some "lab"), .call_camera cameraStream,
   .call_resume cameraStream (some "lab")]

/-- One call, then two 'new_peer' messages. -/
def twoNewPeers : List Action :=
  [.call (.returned cameraStream) (.raised (.rejected 0)) (some "lab"),
   .handle_new_peer (.value "lab") (.returned ⟨5⟩) (.returned ()),
   .handle_new_peer (.value "lab") (.returned ⟨6⟩) (.returned ())]

/-- Two `datachannel` events with no connection, a `hangUp` between them. -/
def twoOrphanChannels : List Action :=
  [.handle_remote_datachannel 1, .hangUp, .handle_remote_datachannel 2]

/-- Two rounds, the first with overlapping segments: a call is begun, a
second click begins another, the camera answers the first, a peer joins and
the offer is forwarded, `hangUp`, and only then the second call resumes. -/
def twoRounds : List Action :=
  [.call_begin, .call_begin, .call_camera cameraStream,
   .call_resume cameraStream (some "lab"), .handle_new_peer_begin (.value "lab"),
   .handle_new_peer_offered ⟨5⟩, .handle_new_peer_applied ⟨5⟩, .hangUp,
   .call_camera cameraStream, .call_resume cameraStream (some "lab"),
   .handle_remote_datachannel 4]

/-! ## Pages used as concrete inputs -/

/-- The page after a successful `call()` in room "lab": socket 0 and
connection 1 exist, no data channel yet. -/
def pageAfterCall : Page :=
  run [.call (.returned cameraStream) (.raised (.rejected 0)) (some "lab")] Page.initial

/-- The caller's page once a peer has joined: the data channel exists. -/
def pageEstablished : Page :=
  run [.handle_new_peer (.value "lab") (.returned ⟨5⟩) (.returned ())] pageAfterCall

/-- The page after a completed `hangUp()` of the established call. -/
def pageAfterHangUp : Page :=
  run [.hangUp] pageEstablished

/-! ## Theorems -/

/-- C1: `enable_camera` falls back exactly once.  When `getUserMedia` answers
a stream `s`, the only platform call is `getUserMedia({video: true, audio:
false})`, `localVideo.srcObject` becomes `s` and `s` is returned.  When it
fails, `getDisplayMedia` is called once, after it, with the same constraints;
its stream `d` is stored and returned, and its failure `e2` is raised to the
caller with `localVideo.srcObject` (and the rest of the page) unchanged. -/
theorem enable_camera_falls_back_once (p : Page) (s d : MediaStream) (e e2 : Err)
    (gdm : Completion MediaStream) :
    enable_camera (.returned s) gdm p =
        ({ p with localVideo := some s, trace := p.trace ++ [.getUserMedia true false] },
          .returned s)
      ∧ enable_camera (.raised e) (.returned d) p =
        ({ p with
            localVideo := some d
            trace := p.trace ++ [.getUserMedia true false, .getDisplayMedia true false] },
          .returned d)
      ∧ enable_camera (.raised e) (.raised e2) p =
        ({ p with
            trace := p.trace ++ [.getUserMedia true false, .getDisplayMedia true false] },
          .raised e2) := by
  refine ⟨?_, ?_, ?_⟩ <;> simp [enable_camera, Page.log]

/-- C7: `call_room` stores what `prompt` returned in `room`; it emits one
'join' carrying that value when the value is a non-empty string, nothing when
it is the empty string, and one 'join' carrying `null` when the prompt was
cancelled. -/
theorem call_room_prompts_then_joins (sock : Nat) (p : Page) :
    (∀ r : String, call_room (some r) sock p =
        { p with
          room := .value r
          trace := p.trace ++ (.prompt "Enter room name:" ::
            if r = "" then [] else [.emit sock "join" (.room (.value r))]) })
      ∧ call_room none sock p =
        { p with
          room := .null
          trace := p.trace ++ [.prompt "Enter room name:", .emit sock "join" (.room .null)] } := by
  constructor
  · intro r
    by_cases h : r = ""
    · simp [call_room, Page.log, looseNeEmpty, h]
    · simp [call_room, Page.log, looseNeEmpty, h]
  · simp [call_room, Page.log, looseNeEmpty]

/-- Stopping tracks sends no signalling message. -/
theorem emits_stopTracks (v : Option MediaStream) : emits (stopTracks v) = [] := by
  cases v with
  | none => rfl
  | some s =>
    simp only [emits, stopTracks, List.filter_eq_nil_iff, List.mem_map]
    rintro _ ⟨t, _, rfl⟩
    simp [Event.isEmit]

/-- Clearing the connection's handlers sends no signalling message. -/
theorem emits_clearedHandlers (pc : Nat) : emits (clearedHandlers pc) = [] := by
  simp [emits, clearedHandlers, Event.isEmit]

/-- C2: with `socket`, `peerConnection` and `dataChannel` all set, `hangUp`
returns normally; its platform calls are, in order, one 'bye' carrying the
current room, the clearing of the connection's handlers, `stop()` on every
track of the remote and then of the local video stream, `close()` on the
connection and on the data channel, and 'bye' is its only signalling message;
afterwards both `srcObject` are `null`, `peerConnection` and `dataChannel` are
`null` and no longer live, '*** Channel is closed ***\n' is appended to
`dataChannelOutput`, and `room` and `socket` are unchanged. -/
theorem hangUp_sends_bye_and_closes (p : Page) (sock pc : Nat) (dc : Channel)
    (hs : p.socket = .value sock) (hc : p.peerConnection = .value pc)
    (hd : p.dataChannel = .value dc) :
    hangUp p =
        ({ p with
            peerConnection := .null
            dataChannel := .null
            localVideo := none
            remoteVideo := none
            dataChannelOutput := p.dataChannelOutput ++ "*** Channel is closed ***\n"
            livePcs := p.livePcs.filter (· ≠ pc)
            liveDcs := p.liveDcs.filter (· ≠ dc)
            trace := p.trace ++ ([.emit sock "bye" (.room p.room)] ++ clearedHandlers pc ++
              stopTracks p.remoteVideo ++ stopTracks p.localVideo ++
              [.closePeerConnection pc, .closeDataChannel dc]) },
          .returned ())
      ∧ emits ([.emit sock "bye" (.room p.room)] ++ clearedHandlers pc ++
          stopTracks p.remoteVideo ++ stopTracks p.localVideo ++
          [.closePeerConnection pc, .closeDataChannel dc]) = [.emit sock "bye" (.room p.room)]
      ∧ (hangUp p).1.room = p.room ∧ (hangUp p).1.socket = p.socket
      ∧ pc ∉ (hangUp p).1.livePcs ∧ dc ∉ (hangUp p).1.liveDcs := by
  have hemit : emits ([.emit sock "bye" (.room p.room)] ++ clearedHandlers pc ++
      stopTracks p.remoteVideo ++ stopTracks p.localVideo ++
      [.closePeerConnection pc, .closeDataChannel dc]) = [.emit sock "bye" (.room p.room)] := by
    have h1 := emits_stopTracks p.remoteVideo
    have h2 := emits_stopTracks p.localVideo
    have h3 := emits_clearedHandlers pc
    simp only [emits] at h1 h2 h3 ⊢
    simp [List.filter_append, h1, h2, h3, Event.isEmit]
  have hrun : hangUp p =
        ({ p with
            peerConnection := .null
            dataChannel := .null
            localVideo := none
            remoteVideo := none
            dataChannelOutput := p.dataChannelOutput ++ "*** Channel is closed ***\n"
            livePcs := p.livePcs.filter (· ≠ pc)
            liveDcs := p.liveDcs.filter (· ≠ dc)
            trace := p.trace ++ ([.emit sock "bye" (.room p.room)] ++ clearedHandlers pc ++
              stopTracks p.remoteVideo ++ stopTracks p.localVideo ++
              [.closePeerConnection pc, .closeDataChannel dc]) },
          .returned ()) := by
    cases hr : p.remoteVideo <;> cases hl : p.localVideo <;>
      simp [hangUp, hs, hc, hd, hr, hl, stopTracks, Page.log, Page.logAll, List.append_assoc]
  refine ⟨hrun, hemit, ?_, ?_, ?_, ?_⟩
  · rw [hrun]
  · rw [hrun]
  · rw [hrun]; simp [List.mem_filter]
  · rw [hrun]; simp [List.mem_filter]

/-- Witness of C2 on the established call. -/
theorem hangUp_sends_bye_and_closes_witness :
    pageEstablished.socket = .value 0 ∧ pageEstablished.peerConnection = .value 1
      ∧ pageEstablished.dataChannel = .value (.created 2)
      ∧ hangUp pageEstablished =
      ({ pageEstablished with
          peerConnection := .null
          dataChannel := .null
          localVideo := none
          remoteVideo := none
          dataChannelOutput := "*** Channel is closed ***\n"
          livePcs := []
          liveDcs := []
          trace := pageEstablished.trace ++ ([.emit 0 "bye" (.room (.value "lab"))] ++
            clearedHandlers 1 ++ [.stopTrack 1] ++
            [.closePeerConnection 1, .closeDataChannel (.created 2)]) },
        .returned ()) := by
  refine ⟨rfl, rfl, rfl, ?_⟩
  rw [(hangUp_sends_bye_and_closes pageEstablished 0 1 (.created 2) rfl rfl rfl).1]
  rfl

/-- C3 (the code departs from it): `hangUp`, which `window.onbeforeunload`
runs on every unload, raises a TypeError in three of the four states named:
on the freshly loaded page (`socket` is `undefined`, nothing is sent), after
`call()` while no data channel exists (`dataChannel` is `undefined`; the 'bye'
is sent and the connection closed before the exception), and after a
completed `hangUp` (`peerConnection` is `null`).  On the established call it
returns. -/
theorem hangUp_raises_outside_established_call :
    hangUp Page.initial = (Page.initial, .raised .typeError)
      ∧ (hangUp pageAfterCall).2 = .raised .typeError
      ∧ (hangUp pageAfterCall).1.peerConnection = .null
      ∧ (hangUp pageAfterCall).1.dataChannelOutput = ""
      ∧ (hangUp pageAfterHangUp).2 = .raised .typeError
      ∧ (hangUp pageAfterHangUp).1.dataChannelOutput = "*** Channel is closed ***\n"
      ∧ (hangUp pageEstablished).2 = .returned () := by
  refine ⟨rfl, rfl, rfl, rfl, rfl, rfl, rfl⟩

/-- C5: with `peerConnection` and `socket` set, `handle_new_peer` first
creates the data channel "chat" on the connection (binding it and setting its
two handlers), then calls `createOffer`; the offer `o` it gets is the argument
of `setLocalDescription`, and after that has succeeded exactly one 'invite' is
emitted, carrying `o`.  When `createOffer` or `setLocalDescription` fails, the
failure is raised and no message is emitted. -/
theorem handle_new_peer_negotiates_in_order (p : Page) (pc sock : Nat) (room : Binding String)
    (o : Description) (e : Err) (applied : Completion Unit)
    (hc : p.peerConnection = .value pc) (hs : p.socket = .value sock) :
    let dc := Channel.created p.nextObject
    let opened : List Event :=
      [.createDataChannel pc "chat" dc, .setDcHandler dc "onopen", .setDcHandler dc "onmessage"]
    let q : Page :=
      { p with nextObject := p.nextObject + 1, liveDcs := dc :: p.liveDcs, dataChannel := .value dc }
    handle_new_peer room (.returned o) (.returned ()) p =
        ({ q with
            trace := p.trace ++ (opened ++ [.createOffer pc, .setLocalDescription pc o,
              .emit sock "invite" (.description o)]) },
          .returned ())
      ∧ handle_new_peer room (.raised e) applied p =
        ({ q with trace := p.trace ++ (opened ++ [.createOffer pc]) }, .raised e)
      ∧ handle_new_peer room (.returned o) (.raised e) p =
        ({ q with trace := p.trace ++ (opened ++ [.createOffer pc, .setLocalDescription pc o]) },
          .raised e)
      ∧ emits (opened ++ [.createOffer pc, .setLocalDescription pc o,
          .emit sock "invite" (.description o)]) = [.emit sock "invite" (.description o)]
      ∧ emits (opened ++ [.createOffer pc]) = []
      ∧ emits (opened ++ [.createOffer pc, .setLocalDescription pc o]) = [] := by
  simp [handle_new_peer, create_datachannel, hc, hs, Page.log, Page.logAll, emits, Event.isEmit]

/-- Witness of C5 on the page after `call()`. -/
theorem handle_new_peer_negotiates_in_order_witness :
    pageAfterCall.peerConnection = .value 1 ∧ pageAfterCall.socket = .value 0
      ∧ (handle_new_peer (.value "lab") (.returned ⟨5⟩) (.returned ()) pageAfterCall).1.trace =
        pageAfterCall.trace ++ [.createDataChannel 1 "chat" (.created 2),
          .setDcHandler (.created 2) "onopen", .setDcHandler (.created 2) "onmessage",
          .createOffer 1, .setLocalDescription 1 ⟨5⟩, .emit 0 "invite" (.description ⟨5⟩)] := by
  refine ⟨rfl, rfl, ?_⟩
  rw [(handle_new_peer_negotiates_in_order pageAfterCall 1 0 (.value "lab") ⟨5⟩ .typeError
    (.returned ()) rfl rfl).1]
  rfl

/-- The uninterrupted `call` is its segments run one after the other. -/
theorem call_segments (p : Page) (s d : MediaStream) (e e2 : Err)
    (gdm : Completion MediaStream) (answer : Option String) :
    call (.returned s) gdm answer p =
        call_resume s answer (call_camera s (call_begin p).1).1
      ∧ call (.raised e) (.returned d) answer p =
        call_resume d answer (call_camera d (call_fallback (call_begin p).1).1).1
      ∧ call (.raised e) (.raised e2) answer p =
        ((call_fallback (call_begin p).1).1, .raised e2) := by
  refine ⟨rfl, rfl, rfl⟩

/-- The uninterrupted `handle_new_peer` whose two awaited calls succeed is
its three segments run one after the other, each going on only when the one
before has returned. -/
theorem handle_new_peer_segments (p : Page) (room : Binding String) (o : Description) :
    handle_new_peer room (.returned o) (.returned ()) p =
      match handle_new_peer_begin room p with
      | (p1, .raised e) => (p1, .raised e)
      | (p1, .returned ()) =>
        match handle_new_peer_offered o p1 with
        | (p2, .raised e) => (p2, .raised e)
        | (p2, .returned ()) => handle_new_peer_applied o p2 := by
  cases hpc : p.peerConnection <;> cases hs : p.socket <;>
    simp [handle_new_peer, handle_new_peer_begin, handle_new_peer_offered,
      handle_new_peer_applied, create_datachannel, hpc, hs, Page.log, Page.logAll]

/-- A phase speaks of the bindings and live objects only. -/
theorem Phase.holds_of_objects (ph : Phase) (p q : Page) (h : q.objects = p.objects)
    (hp : ph.Holds p) : ph.Holds q := by
  simp only [Page.objects, Prod.mk.injEq] at h
  obtain ⟨h1, h2, h3, h4, h5⟩ := h
  cases ph <;> simpa [Phase.Holds, h1, h2, h3, h4, h5] using hp

/-- A resumed `call` sets `socket`, creates one connection and binds it; the
channel side is untouched. -/
theorem call_resume_objects (stream : MediaStream) (answer : Option String) (p : Page) :
    ∃ pc sock, (call_resume stream answer p).1.objects =
      (.value pc, pc :: p.livePcs, p.dataChannel, p.liveDcs, .value sock) := by
  simp only [call_resume, create_peerconnection, add_peerconnection_handlers, call_room,
    add_signaling_handlers, create_signaling_connection, Page.log, Page.logAll, Page.objects]
  split <;> exact ⟨_, _, rfl⟩

/-- A whole `call` that gets a stream does what the resumed segment does. -/
theorem call_objects (gum gdm : Completion MediaStream) (answer : Option String) (p : Page)
    (h : (Action.call gum gdm answer).createsConnection = true) :
    ∃ pc sock, (call gum gdm answer p).1.objects =
      (.value pc, pc :: p.livePcs, p.dataChannel, p.liveDcs, .value sock) := by
  cases gum with
  | returned s =>
    rw [(call_segments p s s .typeError .typeError gdm answer).1]
    exact call_resume_objects s answer (call_camera s (call_begin p).1).1
  | raised e =>
    cases gdm with
    | returned d =>
      rw [(call_segments p d d e e (.returned d) answer).2.1]
      exact call_resume_objects d answer (call_camera d (call_fallback (call_begin p).1).1).1
    | raised e2 => simp [Action.createsConnection] at h

/-- On a set connection the first segment of `handle_new_peer` creates one
channel and binds it; the connection side and `socket` are untouched. -/
theorem handle_new_peer_begin_objects (room : Binding String) (p : Page) (pc : Nat)
    (h : p.peerConnection = .value pc) :
    ∃ dc, (handle_new_peer_begin room p).1.objects =
      (p.peerConnection, p.livePcs, .value dc, dc :: p.liveDcs, p.socket) := by
  simp [handle_new_peer_begin, create_datachannel, h, Page.log, Page.logAll, Page.objects]

/-- On an unset connection the first segment of `handle_new_peer` raises and
touches nothing. -/
theorem handle_new_peer_begin_unset (room : Binding String) (p : Page)
    (h : p.peerConnection.truthy = false) :
    (handle_new_peer_begin room p).1.objects = p.objects := by
  cases hpc : p.peerConnection with
  | value pc => rw [hpc] at h; simp [Binding.truthy] at h
  | undefined => simp [handle_new_peer_begin, create_datachannel, hpc]
  | null => simp [handle_new_peer_begin, create_datachannel, hpc]

/-- The whole `handle_new_peer` does to the bindings and live objects what
its first segment does, however the awaited calls end. -/
theorem handle_new_peer_objects (room : Binding String) (offered : Completion Description)
    (applied : Completion Unit) (p : Page) :
    (handle_new_peer room offered applied p).1.objects =
      (handle_new_peer_begin room p).1.objects := by
  cases hpc : p.peerConnection <;> cases offered <;> cases applied <;> cases hs : p.socket <;>
    simp [handle_new_peer, handle_new_peer_begin, create_datachannel, hpc, hs, Page.log,
      Page.logAll, Page.objects]

/-- The later segments of `handle_new_peer` touch the trace only. -/
theorem handle_new_peer_later_objects (offer : Description) (p : Page) :
    (handle_new_peer_offered offer p).1.objects = p.objects
      ∧ (handle_new_peer_applied offer p).1.objects = p.objects := by
  constructor
  · cases hpc : p.peerConnection <;>
      simp [handle_new_peer_offered, hpc, Page.log, Page.objects]
  · cases hs : p.socket <;>
      simp [handle_new_peer_applied, hs, Page.log, Page.objects]

/-- With `peerConnection` unset `hangUp` raises before it closes anything. -/
theorem hangUp_objects_unset (p : Page) (h : p.peerConnection.truthy = false) :
    (hangUp p).1.objects = p.objects := by
  cases hs : p.socket with
  | undefined => simp [hangUp, hs]
  | null => simp [hangUp, hs]
  | value sock =>
    cases hpc : p.peerConnection with
    | value pc => rw [hpc] at h; simp [Binding.truthy] at h
    | undefined =>
      cases hr : p.remoteVideo <;> cases hl : p.localVideo <;>
        simp [hangUp, hs, hpc, hr, hl, Page.log, Page.logAll, Page.objects]
    | null =>
      cases hr : p.remoteVideo <;> cases hl : p.localVideo <;>
        simp [hangUp, hs, hpc, hr, hl, Page.log, Page.logAll, Page.objects]

/-- With `socket` and `peerConnection` set and `dataChannel` unset, `hangUp`
closes and unbinds the connection, then raises. -/
theorem hangUp_objects_connection (p : Page) (sock pc : Nat) (hs : p.socket = .value sock)
    (hpc : p.peerConnection = .value pc) (hdc : p.dataChannel.truthy = false) :
    (hangUp p).1.objects =
      (.null, p.livePcs.filter (fun c => !decide (c = pc)), p.dataChannel, p.liveDcs,
        p.socket) := by
  cases hd : p.dataChannel with
  | value dc => rw [hd] at hdc; simp [Binding.truthy] at hdc
  | undefined =>
    cases hr : p.remoteVideo <;> cases hl : p.localVideo <;>
      simp [hangUp, hs, hpc, hd, hr, hl, Page.log, Page.logAll, Page.objects]
  | null =>
    cases hr : p.remoteVideo <;> cases hl : p.localVideo <;>
      simp [hangUp, hs, hpc, hd, hr, hl, Page.log, Page.logAll, Page.objects]

/-- With `socket`, `peerConnection` and `dataChannel` set, `hangUp` closes and
unbinds the connection and the channel. -/
theorem hangUp_objects_both (p : Page) (sock pc : Nat) (dc : Channel)
    (hs : p.socket = .value sock) (hpc : p.peerConnection = .value pc)
    (hd : p.dataChannel = .value dc) :
    (hangUp p).1.objects =
      (.null, p.livePcs.filter (fun c => !decide (c = pc)), .null,
        p.liveDcs.filter (fun c => !decide (c = dc)), p.socket) := by
  cases hr : p.remoteVideo <;> cases hl : p.localVideo <;>
    simp [hangUp, hs, hpc, hd, hr, hl, Page.log, Page.logAll, Page.objects]

/-- A set binding has a value. -/
theorem Binding.value_of_truthy {α : Type} (b : Binding α) (h : b.truthy = true) :
    ∃ a, b = .value a := by
  cases b with
  | value a => exact ⟨a, rfl⟩
  | undefined => simp [Binding.truthy] at h
  | null => simp [Binding.truthy] at h

/-- After `hangUp` every phase is back to `idle` on the page. -/
theorem hangUp_holds (ph : Phase) (p : Page) (hp : ph.Holds p) :
    Phase.idle.Holds (hangUp p).1 := by
  cases ph with
  | idle =>
    exact Phase.holds_of_objects .idle p _ (hangUp_objects_unset p hp.1) hp
  | connected =>
    obtain ⟨⟨pc, hpc, hlive⟩, hsock, hdc, hdcs⟩ := hp
    obtain ⟨sock, hs⟩ := Binding.value_of_truthy p.socket hsock
    have h := hangUp_objects_connection p sock pc hs hpc hdc
    simp only [Page.objects, Prod.mk.injEq] at h
    obtain ⟨h1, h2, h3, h4, _⟩ := h
    refine ⟨by rw [h1]; rfl, by rw [h2, hlive]; simp, by rw [h3]; exact hdc, by rw [h4]; exact hdcs⟩
  | chatting =>
    obtain ⟨⟨pc, hpc, hlive⟩, hsock, dc, hdc, hdcs⟩ := hp
    obtain ⟨sock, hs⟩ := Binding.value_of_truthy p.socket hsock
    have h := hangUp_objects_both p sock pc dc hs hpc hdc
    simp only [Page.objects, Prod.mk.injEq] at h
    obtain ⟨h1, h2, h3, h4, _⟩ := h
    refine ⟨by rw [h1]; rfl, by rw [h2, hlive]; simp, by rw [h3]; rfl, by rw [h4, hdcs]; simp⟩

/-- A connection-creating `call` step takes an `idle` page to `connected`. -/
theorem connect_holds (p q : Page) (pc sock : Nat) (hp : Phase.idle.Holds p)
    (h : q.objects = (.value pc, pc :: p.livePcs, p.dataChannel, p.liveDcs, .value sock)) :
    Phase.connected.Holds q := by
  simp only [Page.objects, Prod.mk.injEq] at h
  obtain ⟨h1, h2, h3, h4, h5⟩ := h
  obtain ⟨_, hlive, hdc, hdcs⟩ := hp
  exact ⟨⟨pc, h1, by rw [h2, hlive]⟩, by rw [h5]; rfl, by rw [h3]; exact hdc,
    by rw [h4]; exact hdcs⟩

/-- The first segment of `handle_new_peer` keeps an `idle` page `idle` and
takes a `connected` page to `chatting`. -/
theorem new_peer_holds (room : Binding String) (p : Page) :
    (Phase.idle.Holds p → Phase.idle.Holds (handle_new_peer_begin room p).1)
      ∧ (Phase.connected.Holds p → Phase.chatting.Holds (handle_new_peer_begin room p).1) := by
  constructor
  · intro hp
    exact Phase.holds_of_objects .idle p _ (handle_new_peer_begin_unset room p hp.1) hp
  · intro hp
    obtain ⟨⟨pc, hpc, hlive⟩, hsock, _, hdcs⟩ := hp
    obtain ⟨dc, h⟩ := handle_new_peer_begin_objects room p pc hpc
    simp only [Page.objects, Prod.mk.injEq] at h
    obtain ⟨h1, h2, h3, h4, h5⟩ := h
    exact ⟨⟨pc, by rw [h1]; exact hpc, by rw [h2]; exact hlive⟩, by rw [h5]; exact hsock,
      dc, h3, by rw [h4, hdcs]⟩

/-- An operation that is none of the four kinds the rounds look at leaves
the phase as it is. -/
theorem Phase.next_other (ph ph' : Phase) (a : Action) (hnext : ph.next a = some ph')
    (h1 : a.isHangUp = false) (h2 : a.createsConnection = false)
    (h3 : a.receivesChannel = false) (h4 : a.startsNewPeer = false) : ph' = ph := by
  cases ph <;> simp [Phase.next, h1, h2, h3, h4] at hnext <;> exact hnext.symm

/-- A connection-creating `call` step is let through in phase `idle` only,
and leads to `connected`. -/
theorem Phase.next_connect (ph ph' : Phase) (a : Action) (hnext : ph.next a = some ph')
    (h1 : a.isHangUp = false) (h2 : a.createsConnection = true) :
    ph = .idle ∧ ph' = .connected := by
  cases ph <;> simp [Phase.next, h1, h2] at hnext
  exact ⟨rfl, hnext.symm⟩

/-- A `handle_new_peer` at its start is let through in `idle`, which it
leaves as it is, and in `connected`, from which it leads to `chatting`. -/
theorem Phase.next_newPeer (ph ph' : Phase) (a : Action) (hnext : ph.next a = some ph')
    (h1 : a.isHangUp = false) (h2 : a.createsConnection = false)
    (h3 : a.receivesChannel = false) (h4 : a.startsNewPeer = true) :
    (ph = .idle ∧ ph' = .idle) ∨ (ph = .connected ∧ ph' = .chatting) := by
  cases ph <;> simp [Phase.next, h1, h2, h3, h4] at hnext
  · exact Or.inl ⟨rfl, hnext.symm⟩
  · exact Or.inr ⟨rfl, hnext.symm⟩

/-- One operation the rounds let through takes a page on which the phase
holds to a page on which the next phase holds. -/
theorem step_holds (ph ph' : Phase) (p : Page) (a : Action) (hp : ph.Holds p)
    (hnext : ph.next a = some ph') : ph'.Holds (step p a) := by
  cases a with
  | hangUp =>
    have h' : ph' = .idle := by
      cases ph <;> simp [Phase.next, Action.isHangUp] at hnext <;> exact hnext.symm
    subst h'
    exact hangUp_holds ph p hp
  | handle_remote_datachannel channel =>
    have h' : ph = .connected ∧ ph' = .chatting := by
      cases ph <;>
        simp [Phase.next, Action.isHangUp, Action.createsConnection, Action.receivesChannel]
          at hnext
      exact ⟨rfl, hnext.symm⟩
    obtain ⟨h1, h2⟩ := h'
    subst h1
    subst h2
    obtain ⟨hpcs, hsock, _, hdcs⟩ := hp
    refine ⟨?_, ?_, Channel.received channel, ?_, ?_⟩
    · simpa [step, perform, handle_remote_datachannel, Page.logAll] using hpcs
    · simpa [step, perform, handle_remote_datachannel, Page.logAll] using hsock
    · simp [step, perform, handle_remote_datachannel, Page.logAll]
    · simp [step, perform, handle_remote_datachannel, Page.logAll, hdcs]
  | call gum gdm answer =>
    by_cases hc : (Action.call gum gdm answer).createsConnection = true
    · obtain ⟨h1, h2⟩ := Phase.next_connect ph ph' _ hnext rfl hc
      subst h1
      subst h2
      obtain ⟨pc, sock, h⟩ := call_objects gum gdm answer p hc
      exact connect_holds p _ pc sock hp h
    · have hc' : (Action.call gum gdm answer).createsConnection = false := by
        simpa using hc
      have h' := Phase.next_other ph ph' _ hnext rfl hc' rfl rfl
      subst h'
      cases gum with
      | returned s => simp [Action.createsConnection] at hc
      | raised e =>
        cases gdm with
        | returned d => simp [Action.createsConnection] at hc
        | raised e2 => exact Phase.holds_of_objects ph' p _ rfl hp
  | call_begin =>
    have h' := Phase.next_other ph ph' _ hnext rfl rfl rfl rfl
    subst h'
    exact Phase.holds_of_objects ph' p _ rfl hp
  | call_fallback =>
    have h' := Phase.next_other ph ph' _ hnext rfl rfl rfl rfl
    subst h'
    exact Phase.holds_of_objects ph' p _ rfl hp
  | call_camera stream =>
    have h' := Phase.next_other ph ph' _ hnext rfl rfl rfl rfl
    subst h'
    exact Phase.holds_of_objects ph' p _ rfl hp
  | call_resume stream answer =>
    obtain ⟨h1, h2⟩ := Phase.next_connect ph ph' _ hnext rfl rfl
    subst h1
    subst h2
    obtain ⟨pc, sock, h⟩ := call_resume_objects stream answer p
    exact connect_holds p _ pc sock hp h
  | handle_new_peer room offered applied =>
    have hobj := handle_new_peer_objects room offered applied p
    rcases Phase.next_newPeer ph ph' _ hnext rfl rfl rfl rfl with ⟨h1, h2⟩ | ⟨h1, h2⟩
    · subst h1
      subst h2
      exact Phase.holds_of_objects .idle _ _ hobj ((new_peer_holds room p).1 hp)
    · subst h1
      subst h2
      exact Phase.holds_of_objects .chatting _ _ hobj ((new_peer_holds room p).2 hp)
  | handle_new_peer_begin room =>
    rcases Phase.next_newPeer ph ph' _ hnext rfl rfl rfl rfl with ⟨h1, h2⟩ | ⟨h1, h2⟩
    · subst h1
      subst h2
      exact (new_peer_holds room p).1 hp
    · subst h1
      subst h2
      exact (new_peer_holds room p).2 hp
  | handle_new_peer_offered offer =>
    have h' := Phase.next_other ph ph' _ hnext rfl rfl rfl rfl
    subst h'
    exact Phase.holds_of_objects ph' p _ (handle_new_peer_later_objects offer p).1 hp
  | handle_new_peer_applied offer =>
    have h' := Phase.next_other ph ph' _ hnext rfl rfl rfl rfl
    subst h'
    exact Phase.holds_of_objects ph' p _ (handle_new_peer_later_objects offer p).2 hp
  | handle_invite offer remoteSet answered applied =>
    have h' := Phase.next_other ph ph' _ hnext rfl rfl rfl rfl
    subst h'
    refine Phase.holds_of_objects ph' p _ ?_ hp
    cases hpc : p.peerConnection <;> cases remoteSet <;> cases answered <;> cases applied <;>
      cases hs : p.socket <;>
      simp [step, perform, handle_invite, hpc, hs, Page.log, Page.objects]
  | handle_ok answer remoteSet =>
    have h' := Phase.next_other ph ph' _ hnext rfl rfl rfl rfl
    subst h'
    refine Phase.holds_of_objects ph' p _ ?_ hp
    cases hpc : p.peerConnection <;>
      simp [step, perform, handle_ok, hpc, Page.log, Page.objects]
  | handle_local_icecandidate candidate =>
    have h' := Phase.next_other ph ph' _ hnext rfl rfl rfl rfl
    subst h'
    refine Phase.holds_of_objects ph' p _ ?_ hp
    cases candidate <;> cases hs : p.socket <;>
      simp [step, perform, handle_local_icecandidate, hs, Page.log, Page.objects]
  | handle_remote_icecandidate candidate added =>
    have h' := Phase.next_other ph ph' _ hnext rfl rfl rfl rfl
    subst h'
    refine Phase.holds_of_objects ph' p _ ?_ hp
    cases hpc : p.peerConnection <;>
      simp [step, perform, handle_remote_icecandidate, hpc, Page.log, Page.objects]
  | handle_remote_track streams =>
    have h' := Phase.next_other ph ph' _ hnext rfl rfl rfl rfl
    subst h'
    exact Phase.holds_of_objects ph' p _ rfl hp
  | handle_datachannel_open sent =>
    have h' := Phase.next_other ph ph' _ hnext rfl rfl rfl rfl
    subst h'
    refine Phase.holds_of_objects ph' p _ ?_ hp
    cases hdc : p.dataChannel <;>
      simp [step, perform, handle_datachannel_open, hdc, Page.log, Page.objects]
  | sendMessage sent =>
    have h' := Phase.next_other ph ph' _ hnext rfl rfl rfl rfl
    subst h'
    refine Phase.holds_of_objects ph' p _ ?_ hp
    cases hdc : p.dataChannel <;>
      simp [step, perform, sendMessage, hdc, Page.log, Page.objects]
  | handle_datachannel_message data =>
    have h' := Phase.next_other ph ph' _ hnext rfl rfl rfl rfl
    subst h'
    exact Phase.holds_of_objects ph' p _ rfl hp

/-- The step lemma carried along a run that keeps to the rounds. -/
theorem run_holds (acts : List Action) :
    ∀ (ph : Phase) (p : Page), ph.Holds p → inRounds ph acts = true →
      ∃ ph' : Phase, ph'.Holds (run acts p) := by
  induction acts with
  | nil => intro ph p hp _; exact ⟨ph, hp⟩
  | cons a rest ih =>
    intro ph p hp h
    simp only [inRounds, Bool.and_eq_true] at h
    obtain ⟨_, hrest⟩ := h
    cases hnext : ph.next a with
    | none => rw [hnext] at hrest; simp at hrest
    | some ph' =>
      rw [hnext] at hrest
      exact ih ph' (step p a) (step_holds ph ph' p a hp hnext) hrest

/-- A page on which some phase holds has at most one live connection and at
most one live channel, each held in its binding. -/
theorem atMostOneActive_of_holds (ph : Phase) (p : Page) (hp : ph.Holds p) :
    AtMostOneActive p := by
  cases ph with
  | idle =>
    obtain ⟨_, h2, _, h4⟩ := hp
    simp [AtMostOneActive, h2, h4]
  | connected =>
    obtain ⟨⟨pc, h1, h2⟩, _, _, h4⟩ := hp
    simp [AtMostOneActive, h1, h2, h4]
  | chatting =>
    obtain ⟨⟨pc, h1, h2⟩, _, dc, h3, h4⟩ := hp
    simp [AtMostOneActive, h1, h2, h3, h4]

set_option maxHeartbeats 1000000 in
/-- One action either leaves `socket` set, or keeps it as it was and installs
no handler. -/
theorem step_socket (p : Page) (a : Action) :
    (step p a).socket.truthy = true
      ∨ ((step p a).socket = p.socket
        ∧ ((step p a).trace.any Event.installsHandler = true →
            p.trace.any Event.installsHandler = true)) := by
  cases a with
  | call gum gdm answer =>
    cases gum with
    | returned s =>
      left
      simp only [step, perform, call, enable_camera, create_peerconnection,
        add_peerconnection_handlers, call_room, add_signaling_handlers,
        create_signaling_connection, Page.log, Page.logAll]
      split <;> rfl
    | raised e =>
      cases gdm with
      | returned d =>
        left
        simp only [step, perform, call, enable_camera, create_peerconnection,
          add_peerconnection_handlers, call_room, add_signaling_handlers,
          create_signaling_connection, Page.log, Page.logAll]
        split <;> rfl
      | raised e2 =>
        right
        simp [step, perform, call, enable_camera, Page.log, Event.installsHandler]
  | handle_new_peer room offered applied =>
    right
    cases hpc : p.peerConnection <;> cases offered <;> cases applied <;> cases hs : p.socket <;>
      simp [step, perform, handle_new_peer, create_datachannel, hpc, hs, Page.log, Page.logAll,
        Event.installsHandler]
  | call_begin =>
    right
    simp [step, perform, call_begin, Page.log, Event.installsHandler]
  | call_fallback =>
    right
    simp [step, perform, call_fallback, Page.log, Event.installsHandler]
  | call_camera stream =>
    right
    simp [step, perform, call_camera]
  | call_resume stream answer =>
    left
    simp only [step, perform, call_resume, create_peerconnection,
      add_peerconnection_handlers, call_room, add_signaling_handlers,
      create_signaling_connection, Page.log, Page.logAll]
    split <;> rfl
  | handle_new_peer_begin room =>
    right
    cases hpc : p.peerConnection <;>
      simp [step, perform, handle_new_peer_begin, create_datachannel, hpc, Page.log,
        Page.logAll, Event.installsHandler]
  | handle_new_peer_offered offer =>
    right
    cases hpc : p.peerConnection <;>
      simp [step, perform, handle_new_peer_offered, hpc, Page.log, Event.installsHandler]
  | handle_new_peer_applied offer =>
    right
    cases hs : p.socket <;>
      simp [step, perform, handle_new_peer_applied, hs, Page.log, Event.installsHandler]
  | handle_invite offer remoteSet answered applied =>
    right
    cases hpc : p.peerConnection <;> cases remoteSet <;> cases answered <;> cases applied <;>
      cases hs : p.socket <;>
      simp [step, perform, handle_invite, hpc, hs, Page.log, Event.installsHandler]
  | handle_ok answer remoteSet =>
    right
    cases hpc : p.peerConnection <;>
      simp [step, perform, handle_ok, hpc, Page.log, Event.installsHandler]
  | handle_local_icecandidate candidate =>
    right
    cases candidate <;> cases hs : p.socket <;>
      simp [step, perform, handle_local_icecandidate, hs, Page.log, Event.installsHandler]
  | handle_remote_icecandidate candidate added =>
    right
    cases hpc : p.peerConnection <;>
      simp [step, perform, handle_remote_icecandidate, hpc, Page.log, Event.installsHandler]
  | handle_remote_track streams =>
    right
    simp [step, perform, handle_remote_track]
  | handle_remote_datachannel channel =>
    right
    simp [step, perform, handle_remote_datachannel, Page.logAll, Event.installsHandler]
  | handle_datachannel_open sent =>
    right
    cases hdc : p.dataChannel <;>
      simp [step, perform, handle_datachannel_open, hdc, Page.log, Event.installsHandler]
  | sendMessage sent =>
    right
    cases hdc : p.dataChannel <;>
      simp [step, perform, sendMessage, hdc, Page.log, Event.installsHandler]
  | handle_datachannel_message data =>
    right
    simp [step, perform, handle_datachannel_message]
  | hangUp =>
    right
    cases hs : p.socket with
    | undefined => simp [step, perform, hangUp, hs]
    | null => simp [step, perform, hangUp, hs]
    | value sock =>
      have hstop : ∀ ts : List Nat, (ts.map Event.stopTrack).any Event.installsHandler = false := by
        intro ts
        simp [List.any_map, Event.installsHandler]
      have hclear : ∀ pc, (clearedHandlers pc).any Event.installsHandler = false := by
        intro pc
        rfl
      cases hpc : p.peerConnection <;> cases hdc : p.dataChannel <;>
        cases hr : p.remoteVideo <;> cases hl : p.localVideo <;>
        simp [step, perform, hangUp, hs, hpc, hdc, hr, hl, Page.log, Page.logAll,
          Event.installsHandler, hstop, hclear]

/-- In every page a run reaches from the freshly loaded one, `socket` is set
as soon as a handler has been installed. -/
theorem run_socketReady (acts : List Action) :
    ∀ p : Page, SocketReady p → SocketReady (run acts p) := by
  induction acts with
  | nil => intro p hp; exact hp
  | cons a rest ih =>
    intro p hp
    apply ih (step p a)
    intro hany
    rcases step_socket p a with h | ⟨hsock, htrace⟩
    · exact h
    · rw [hsock]
      exact hp (htrace hany)

/-- An installed handler in the trace of a reached page gives the socket. -/
theorem socket_of_installed (acts : List Action) (e : Event)
    (he : e ∈ (run acts Page.initial).trace) (hi : e.installsHandler = true) :
    ∃ sock, (run acts Page.initial).socket = .value sock := by
  have hready := run_socketReady acts Page.initial (by intro h; simp [Page.initial] at h)
  have htruthy := hready (List.any_eq_true.mpr ⟨e, he, hi⟩)
  cases hs : (run acts Page.initial).socket with
  | value sock => exact ⟨sock, rfl⟩
  | undefined => rw [hs] at htruthy; simp [Binding.truthy] at htruthy
  | null => rw [hs] at htruthy; simp [Binding.truthy] at htruthy

/-- C4 as stated fails, on each side.  Two `call()` in a row, or two `call()`
that overlap at the `await` of line 19, are sequences of the named operations
after which two peer connections are live, connection 1 never closed and not
the one in `peerConnection`.  Two 'new_peer' messages after one call leave two
data channels live on the same connection, and so do two `datachannel` events
with a `hangUp` between them that raised before it closed anything. -/
theorem second_open_leaves_two_live :
    ((∀ a ∈ twoCalls, a.isSessionOp = true)
        ∧ (run twoCalls Page.initial).livePcs = [3, 1]
        ∧ (run twoCalls Page.initial).peerConnection = .value 3
        ∧ ¬ AtMostOneActive (run twoCalls Page.initial))
      ∧ ((∀ a ∈ overlappingCalls, a.isSessionOp = true)
        ∧ (run overlappingCalls Page.initial).livePcs = [3, 1]
        ∧ (run overlappingCalls Page.initial).peerConnection = .value 3
        ∧ ¬ AtMostOneActive (run overlappingCalls Page.initial))
      ∧ ((∀ a ∈ twoNewPeers, a.isSessionOp = true)
        ∧ (run twoNewPeers Page.initial).livePcs = [1]
        ∧ (run twoNewPeers Page.initial).liveDcs = [.created 3, .created 2]
        ∧ (run twoNewPeers Page.initial).dataChannel = .value (.created 3)
        ∧ ¬ AtMostOneActive (run twoNewPeers Page.initial))
      ∧ ((∀ a ∈ twoOrphanChannels, a.isSessionOp = true)
        ∧ (run twoOrphanChannels Page.initial).liveDcs = [.received 2, .received 1]
        ∧ (run twoOrphanChannels Page.initial).dataChannel = .value (.received 2)
        ∧ ¬ AtMostOneActive (run twoOrphanChannels Page.initial)) := by
  refine ⟨⟨by decide, rfl, rfl, ?_⟩, ⟨by decide, rfl, rfl, ?_⟩, ⟨by decide, rfl, rfl, rfl, ?_⟩,
    ⟨by decide, rfl, rfl, ?_⟩⟩
  · intro h
    have hlen : (run twoCalls Page.initial).livePcs.length ≤ 1 := h.1
    have hlive : (run twoCalls Page.initial).livePcs = [3, 1] := rfl
    rw [hlive] at hlen
    simp at hlen
  · intro h
    have hlen : (run overlappingCalls Page.initial).livePcs.length ≤ 1 := h.1
    have hlive : (run overlappingCalls Page.initial).livePcs = [3, 1] := rfl
    rw [hlive] at hlen
    simp at hlen
  · intro h
    have hlen : (run twoNewPeers Page.initial).liveDcs.length ≤ 1 := h.2.2.1
    have hlive : (run twoNewPeers Page.initial).liveDcs = [.created 3, .created 2] := rfl
    rw [hlive] at hlen
    simp at hlen
  · intro h
    have hlen : (run twoOrphanChannels Page.initial).liveDcs.length ≤ 1 := h.2.2.1
    have hlive : (run twoOrphanChannels Page.initial).liveDcs = [.received 2, .received 1] := rfl
    rw [hlive] at hlen
    simp at hlen

/-- C4, amended: take any sequence of `call`, `handle_new_peer`,
`handle_remote_datachannel` and `hangUp`, the two `async` ones whole or
interleaved in their segments, in which between two `hangUp` (and before the
first and after the last) at most one `call` gets a media stream and so
creates a connection, a data channel is created by `handle_new_peer` or
received by `handle_remote_datachannel` only after that call and at most once,
and `handle_new_peer` otherwise runs only with no connection, where it raises.
In the page it reaches from the loaded one, at most one connection and at
most one data channel created or received and not yet closed exists, and it
is the one held in the `peerConnection` / `dataChannel` binding. -/
theorem at_most_one_active_in_rounds (acts : List Action)
    (h : inRounds .idle acts = true) : AtMostOneActive (run acts Page.initial) := by
  have h0 : Phase.idle.Holds Page.initial := ⟨rfl, rfl, rfl, rfl⟩
  obtain ⟨ph, hph⟩ := run_holds acts .idle Page.initial h0 h
  exact atMostOneActive_of_holds ph _ hph

/-- Witness of the amended C4: two rounds with overlapping segments; at the
end connection 4 and the received channel 4 are the live ones, and bound. -/
theorem at_most_one_active_in_rounds_witness :
    inRounds .idle twoRounds = true
      ∧ (run twoRounds Page.initial).livePcs = [4]
      ∧ (run twoRounds Page.initial).liveDcs = [.received 4]
      ∧ AtMostOneActive (run twoRounds Page.initial) :=
  ⟨rfl, rfl, rfl, at_most_one_active_in_rounds twoRounds rfl⟩

/-- C6 as stated fails: an offer that arrives after a completed `hangUp`
(the socket and its 'invite' handler are still there, `peerConnection` is
`null`) makes `handle_invite` raise a TypeError before any platform call:
`setRemoteDescription` is not called with the offer, whatever the platform
would have answered. -/
theorem handle_invite_after_hangUp_calls_nothing :
    Event.on 0 "invite" ∈ pageAfterHangUp.trace
      ∧ pageAfterHangUp.socket = .value 0
      ∧ pageAfterHangUp.peerConnection = .null
      ∧ handle_invite ⟨9⟩ (.returned ()) (.returned ⟨10⟩) (.returned ()) pageAfterHangUp =
        (pageAfterHangUp, .raised .typeError)
      ∧ (handle_invite ⟨9⟩ (.returned ()) (.returned ⟨10⟩) (.returned ())
          pageAfterHangUp).1.trace.any Event.isSetRemoteDescription = false := by
  refine ⟨by decide, rfl, rfl, rfl, rfl⟩

/-- C6, amended: for every offer received through an installed 'invite'
handler, `socket` is set, and while `peerConnection` is set `handle_invite`
calls `setRemoteDescription` with the offer, then `createAnswer`, then
`setLocalDescription` with the answer `a` it got, and emits exactly one 'ok'
carrying `a` when all three succeed; when one of them fails the failure is
raised, the later calls are not made and no 'ok' is emitted.  While
`peerConnection` is `undefined` or `null` it raises a TypeError without any
platform call.  In every case the four bindings (and everything but the trace)
are unchanged. -/
theorem handle_invite_answers_when_connected (acts : List Action) (sock0 : Nat)
    (offer a : Description) (e : Err) (answered : Completion Description)
    (remoteSet applied : Completion Unit)
    (hrecv : Event.on sock0 "invite" ∈ (run acts Page.initial).trace) :
    ∃ sock, (run acts Page.initial).socket = .value sock
      ∧ (∀ pc, (run acts Page.initial).peerConnection = .value pc →
          handle_invite offer (.returned ()) (.returned a) (.returned ()) (run acts Page.initial) =
              ({ run acts Page.initial with
                  trace := (run acts Page.initial).trace ++ [.setRemoteDescription pc offer,
                    .createAnswer pc, .setLocalDescription pc a,
                    .emit sock "ok" (.description a)] },
                .returned ())
            ∧ handle_invite offer (.raised e) answered applied (run acts Page.initial) =
              ({ run acts Page.initial with
                  trace := (run acts Page.initial).trace ++ [.setRemoteDescription pc offer] },
                .raised e)
            ∧ handle_invite offer (.returned ()) (.raised e) applied (run acts Page.initial) =
              ({ run acts Page.initial with
                  trace := (run acts Page.initial).trace ++ [.setRemoteDescription pc offer,
                    .createAnswer pc] },
                .raised e)
            ∧ handle_invite offer (.returned ()) (.returned a) (.raised e)
                (run acts Page.initial) =
              ({ run acts Page.initial with
                  trace := (run acts Page.initial).trace ++ [.setRemoteDescription pc offer,
                    .createAnswer pc, .setLocalDescription pc a] },
                .raised e))
      ∧ ((run acts Page.initial).peerConnection.truthy = false →
          handle_invite offer remoteSet answered applied (run acts Page.initial) =
            (run acts Page.initial, .raised .typeError)) := by
  obtain ⟨sock, hs⟩ := socket_of_installed acts _ hrecv rfl
  refine ⟨sock, hs, ?_, ?_⟩
  · intro pc hpc
    simp [handle_invite, hpc, hs, Page.log]
  · intro hpc
    cases h : (run acts Page.initial).peerConnection with
    | value pc => rw [h] at hpc; simp [Binding.truthy] at hpc
    | undefined => simp [handle_invite, h]
    | null => simp [handle_invite, h]

/-- Witness of the amended C6: the callee's page after `call()`. -/
theorem handle_invite_answers_when_connected_witness :
    Event.on 0 "invite" ∈ pageAfterCall.trace
      ∧ ∃ sock, pageAfterCall.socket = .value sock
        ∧ handle_invite ⟨9⟩ (.returned ()) (.returned ⟨10⟩) (.returned ()) pageAfterCall =
          ({ pageAfterCall with
              trace := pageAfterCall.trace ++ [.setRemoteDescription 1 ⟨9⟩, .createAnswer 1,
                .setLocalDescription 1 ⟨10⟩, .emit sock "ok" (.description ⟨10⟩)] },
            .returned ()) := by
  refine ⟨by decide, ?_⟩
  obtain ⟨sock, hs, hset, _⟩ := handle_invite_answers_when_connected
    [.call (.returned cameraStream) (.raised (.rejected 0)) (some "lab")] 0 ⟨9⟩ ⟨10⟩ .typeError
    (.returned ⟨10⟩) (.returned ()) (.returned ()) (by decide)
  exact ⟨sock, hs, (hset 1 rfl).1⟩

/-- C8: for every `icecandidate` event, delivered through an installed
`onicecandidate` handler, `socket` is set and `handle_local_icecandidate`
returns normally; it emits exactly one 'ice_candidate' carrying
`event.candidate` when the candidate is present and nothing when it is `null`;
nothing but the trace changes, so the four bindings are unchanged. -/
theorem handle_local_icecandidate_sends_if_present (acts : List Action) (pc : Nat)
    (hinst : Event.setPcHandler pc "onicecandidate" true ∈ (run acts Page.initial).trace) :
    ∃ sock, (run acts Page.initial).socket = .value sock
      ∧ (∀ c, handle_local_icecandidate (some c) (run acts Page.initial) =
          ({ run acts Page.initial with
              trace := (run acts Page.initial).trace ++
                [.emit sock "ice_candidate" (.candidate c)] },
            .returned ()))
      ∧ handle_local_icecandidate none (run acts Page.initial) =
          (run acts Page.initial, .returned ()) := by
  obtain ⟨sock, hs⟩ := socket_of_installed acts _ hinst rfl
  refine ⟨sock, hs, ?_, ?_⟩
  · intro c
    simp [handle_local_icecandidate, hs, Page.log]
  · simp [handle_local_icecandidate]

/-- Witness of C8: a candidate gathered right after `call()`. -/
theorem handle_local_icecandidate_sends_if_present_witness :
    Event.setPcHandler 1 "onicecandidate" true ∈ pageAfterCall.trace
      ∧ ∃ sock, pageAfterCall.socket = .value sock
        ∧ handle_local_icecandidate (some ⟨4⟩) pageAfterCall =
          ({ pageAfterCall with
              trace := pageAfterCall.trace ++ [.emit sock "ice_candidate" (.candidate ⟨4⟩)] },
            .returned ()) := by
  refine ⟨by decide, ?_⟩
  obtain ⟨sock, hs, hsome, _⟩ := handle_local_icecandidate_sends_if_present
    [.call (.returned cameraStream) (.raised (.rejected 0)) (some "lab")] 1 (by decide)
  exact ⟨sock, hs, hsome ⟨4⟩⟩

end WebRTCClient
